import Mathlib

/-!
Verification of `src/OpenGL/libGLES_CM/Renderbuffer.cpp` (SwiftShader, es1):
the Renderbuffer handle, its RenderbufferInterface realizations
(RenderbufferTexture2D proxy, RenderbufferStorage-derived Colorbuffer,
DepthStencilbuffer, Depthbuffer, Stencilbuffer), and their interaction with
the external Image / Device / Context collaborators.

Embedding style: each C++ object is a Lean structure; mutating member
functions are state-passing functions; observable side effects (device
allocation calls, Image refcount changes, markShared, the GL error sink,
texture proxy-reference calls, the base Object refcount) are recorded in an
explicit event trace, in program order.  External collaborators (Image,
Device, Context, Texture2D, the format-conversion tables) are modelled at
their interface boundary only, exactly as the spec's section 6 describes
them: the device and the conversion tables are parameters, an Image is a
record of the queried fields plus a refcount and a shared flag.
-/

namespace es1

/-! GL enumerators used by Renderbuffer.cpp (numeric values from the GL headers). -/

def GL_RGBA4_OES : Nat := 0x8056
def GL_DEPTH24_STENCIL8_OES : Nat := 0x88F0
def GL_DEPTH_COMPONENT16_OES : Nat := 0x81A5
def GL_STENCIL_INDEX8_OES : Nat := 0x8D48
def GL_OUT_OF_MEMORY : Nat := 0x0505

/-- `sw::Format` values used in this file.  The enum lives outside this
translation unit; the two enumerators Renderbuffer.cpp names are given
distinct symbolic values. -/
def FORMAT_A8B8G8R8 : Nat := 28

def FORMAT_D24S8 : Nat := 45

/-- External collaborator `egl::Image`, modelled at its interface boundary
(spec section 6): queried geometry fields, a reference count and the
non-reversible shared flag.  `id` is the pointer identity used by the
event trace. -/
structure Image where
  id : Nat
  width : Int
  height : Int
  depth : Int
  internalFormat : Nat
  refCount : Nat
  shared : Bool
  deriving DecidableEq, Repr

/-- Observable side effects of the Renderbuffer code, recorded in program
order: device allocation calls, refcount traffic on Images, `markShared`,
the process-wide GL error sink, the texture proxy-reference hooks, and the
base `Object` refcount operations. -/
inductive Event where
  | callCreateRenderTarget (width height : Int) (format : Nat) (samples : Int)
      (lockable : Bool)
  | callCreateDepthStencilSurface (width height : Int) (format : Nat)
      (samples : Int) (lockable : Bool)
  | imageAddRef (id : Nat)
  | imageRelease (id : Nat)
  | imageMarkShared (id : Nat)
  | glError (code : Nat)
  | texAddProxyRef
  | texReleaseProxy
  | objAddRef
  | objRelease
  deriving DecidableEq, Repr

/-- External collaborator `Device` (spec section 6): the two surface
allocators, each returning a fresh Image or null. -/
structure Device where
  createRenderTarget : Int → Int → Nat → Int → Bool → Option Image
  createDepthStencilSurface : Int → Int → Nat → Int → Bool → Option Image

/-- `image.getDepth() & ~1` — the low bit of the depth field masked off.
For two's-complement integers `d & ~1 = d - d % 2` (Euclidean remainder),
which is what we use because `Int.land` does not reduce in the kernel. -/
def depthAndNotOne (d : Int) : Int := d - d % 2

/-- Fields of `RenderbufferStorage` (Renderbuffer.cpp lines 251-287). -/
structure RenderbufferStorage where
  mWidth : Int
  mHeight : Int
  format : Nat
  internalFormat : Nat
  mSamples : Int
  deriving DecidableEq, Repr

/-- `RenderbufferStorage::RenderbufferStorage()` — the default-constructed
zero-size state. -/
def RenderbufferStorage.init : RenderbufferStorage :=
  { mWidth := 0
    mHeight := 0
    format := GL_RGBA4_OES
    internalFormat := FORMAT_A8B8G8R8
    mSamples := 0 }

def RenderbufferStorage.getWidth (s : RenderbufferStorage) : Int := s.mWidth

def RenderbufferStorage.getHeight (s : RenderbufferStorage) : Int := s.mHeight

def RenderbufferStorage.getFormat (s : RenderbufferStorage) : Nat := s.format

def RenderbufferStorage.getInternalFormat (s : RenderbufferStorage) : Nat :=
  s.internalFormat

def RenderbufferStorage.getSamples (s : RenderbufferStorage) : Int := s.mSamples

/-- `Colorbuffer`: RenderbufferStorage fields plus the owned render target. -/
structure Colorbuffer where
  storage : RenderbufferStorage
  mRenderTarget : Option Image
  deriving DecidableEq, Repr

/-- `Colorbuffer::Colorbuffer(egl::Image *renderTarget)` (lines 289-301):
wrap mode.  `convertBackBufferFormat` is the external
`sw2es::ConvertBackBufferFormat` table, passed in. -/
def Colorbuffer.wrap (convertBackBufferFormat : Nat → Nat)
    (renderTarget : Option Image) : Colorbuffer × List Event :=
  match renderTarget with
  | none => ({ storage := RenderbufferStorage.init, mRenderTarget := none }, [])
  | some img =>
      let img2 : Image := { img with refCount := img.refCount + 1 }
      ({ storage :=
          { mWidth := img.width
            mHeight := img.height
            internalFormat := img.internalFormat
            format := convertBackBufferFormat img.internalFormat
            mSamples := depthAndNotOne img.depth }
         mRenderTarget := some img2 },
       [Event.imageAddRef img.id])

/-- `Colorbuffer::Colorbuffer(int width, int height, GLenum format, GLsizei
samples)` (lines 303-326): allocate mode.  `convertRenderbufferFormat` is
the external `es2sw::ConvertRenderbufferFormat` table and
`getSupportedMultisampleCount` is `Context::getSupportedMultisampleCount`,
both passed in.  Note that on allocation failure the constructor raises
GL_OUT_OF_MEMORY and returns early, before the member assignments: the
fields keep the default-constructed state. -/
def Colorbuffer.alloc (dev : Device) (convertRenderbufferFormat : Nat → Nat)
    (getSupportedMultisampleCount : Int → Int)
    (width height : Int) (format : Nat) (samples : Int) :
    Colorbuffer × List Event :=
  let requestedFormat := convertRenderbufferFormat format
  let supportedSamples := getSupportedMultisampleCount samples
  if width > 0 ∧ height > 0 then
    let callEv :=
      Event.callCreateRenderTarget width height requestedFormat
        supportedSamples false
    match dev.createRenderTarget width height requestedFormat
        supportedSamples false with
    | none =>
        ({ storage := RenderbufferStorage.init, mRenderTarget := none },
         [callEv, Event.glError GL_OUT_OF_MEMORY])
    | some img =>
        ({ storage :=
            { mWidth := width
              mHeight := height
              format := format
              internalFormat := requestedFormat
              mSamples := supportedSamples }
           mRenderTarget := some img },
         [callEv])
  else
    ({ storage :=
        { mWidth := width
          mHeight := height
          format := format
          internalFormat := requestedFormat
          mSamples := supportedSamples }
       mRenderTarget := none },
     [])

/-- `Colorbuffer::getRenderTarget()` (lines 338-346): addRef the owned image
if present, return it. -/
def Colorbuffer.getRenderTarget (cb : Colorbuffer) :
    Option Image × Colorbuffer × List Event :=
  match cb.mRenderTarget with
  | none => (none, cb, [])
  | some img =>
      let img2 : Image := { img with refCount := img.refCount + 1 }
      (some img2, { cb with mRenderTarget := some img2 },
       [Event.imageAddRef img.id])

/-- `Colorbuffer::createSharedImage()` (lines 350-359): addRef and
markShared the owned image if present, return it. -/
def Colorbuffer.createSharedImage (cb : Colorbuffer) :
    Option Image × Colorbuffer × List Event :=
  match cb.mRenderTarget with
  | none => (none, cb, [])
  | some img =>
      let img2 : Image := { img with refCount := img.refCount + 1, shared := true }
      (some img2, { cb with mRenderTarget := some img2 },
       [Event.imageAddRef img.id, Event.imageMarkShared img.id])

/-- `Colorbuffer::isShared()` (lines 361-364) dereferences `mRenderTarget`
unconditionally; `none` models the undefined null dereference. -/
def Colorbuffer.isShared (cb : Colorbuffer) : Option Bool :=
  cb.mRenderTarget.map (fun img => img.shared)

/-- `Colorbuffer::~Colorbuffer()` (lines 328-334): release the owned image
if present. -/
def Colorbuffer.destroy (cb : Colorbuffer) : List Event :=
  match cb.mRenderTarget with
  | none => []
  | some img => [Event.imageRelease img.id]

/-- `DepthStencilbuffer`: RenderbufferStorage fields plus the owned
depth-stencil surface. -/
structure DepthStencilbuffer where
  storage : RenderbufferStorage
  mDepthStencil : Option Image
  deriving DecidableEq, Repr

/-- `DepthStencilbuffer::DepthStencilbuffer(egl::Image *depthStencil)`
(lines 366-378): wrap mode.  `convertDepthStencilFormat` is the external
`sw2es::ConvertDepthStencilFormat` table. -/
def DepthStencilbuffer.wrap (convertDepthStencilFormat : Nat → Nat)
    (depthStencil : Option Image) : DepthStencilbuffer × List Event :=
  match depthStencil with
  | none => ({ storage := RenderbufferStorage.init, mDepthStencil := none }, [])
  | some img =>
      let img2 : Image := { img with refCount := img.refCount + 1 }
      ({ storage :=
          { mWidth := img.width
            mHeight := img.height
            internalFormat := img.internalFormat
            format := convertDepthStencilFormat img.internalFormat
            mSamples := depthAndNotOne img.depth }
         mDepthStencil := some img2 },
       [Event.imageAddRef img.id])

/-- `DepthStencilbuffer::DepthStencilbuffer(int width, int height, GLsizei
samples)` (lines 380-402): allocate mode, always requesting FORMAT_D24S8.
Allocation failure raises GL_OUT_OF_MEMORY and returns early, keeping the
default-constructed fields. -/
def DepthStencilbuffer.alloc (dev : Device)
    (getSupportedMultisampleCount : Int → Int)
    (width height : Int) (samples : Int) :
    DepthStencilbuffer × List Event :=
  let supportedSamples := getSupportedMultisampleCount samples
  if width > 0 ∧ height > 0 then
    let callEv :=
      Event.callCreateDepthStencilSurface width height FORMAT_D24S8
        supportedSamples false
    match dev.createDepthStencilSurface width height FORMAT_D24S8
        supportedSamples false with
    | none =>
        ({ storage := RenderbufferStorage.init, mDepthStencil := none },
         [callEv, Event.glError GL_OUT_OF_MEMORY])
    | some img =>
        ({ storage :=
            { mWidth := width
              mHeight := height
              format := GL_DEPTH24_STENCIL8_OES
              internalFormat := FORMAT_D24S8
              mSamples := supportedSamples }
           mDepthStencil := some img },
         [callEv])
  else
    ({ storage :=
        { mWidth := width
          mHeight := height
          format := GL_DEPTH24_STENCIL8_OES
          internalFormat := FORMAT_D24S8
          mSamples := supportedSamples }
       mDepthStencil := none },
     [])

/-- `DepthStencilbuffer::getRenderTarget()` (lines 414-422). -/
def DepthStencilbuffer.getRenderTarget (d : DepthStencilbuffer) :
    Option Image × DepthStencilbuffer × List Event :=
  match d.mDepthStencil with
  | none => (none, d, [])
  | some img =>
      let img2 : Image := { img with refCount := img.refCount + 1 }
      (some img2, { d with mDepthStencil := some img2 },
       [Event.imageAddRef img.id])

/-- `DepthStencilbuffer::createSharedImage()` (lines 426-435). -/
def DepthStencilbuffer.createSharedImage (d : DepthStencilbuffer) :
    Option Image × DepthStencilbuffer × List Event :=
  match d.mDepthStencil with
  | none => (none, d, [])
  | some img =>
      let img2 : Image := { img with refCount := img.refCount + 1, shared := true }
      (some img2, { d with mDepthStencil := some img2 },
       [Event.imageAddRef img.id, Event.imageMarkShared img.id])

/-- `DepthStencilbuffer::isShared()` (lines 437-440) dereferences
`mDepthStencil` unconditionally; `none` models the undefined null
dereference. -/
def DepthStencilbuffer.isShared (d : DepthStencilbuffer) : Option Bool :=
  d.mDepthStencil.map (fun img => img.shared)

/-- `DepthStencilbuffer::~DepthStencilbuffer()` (lines 404-410). -/
def DepthStencilbuffer.destroy (d : DepthStencilbuffer) : List Event :=
  match d.mDepthStencil with
  | none => []
  | some img => [Event.imageRelease img.id]

/-- `Depthbuffer::Depthbuffer(egl::Image *depthStencil)` (lines 442-450):
delegate to the DepthStencilbuffer wrap constructor, then overwrite the
API-facing format iff the constructor argument was non-null. -/
def Depthbuffer.wrap (convertDepthStencilFormat : Nat → Nat)
    (depthStencil : Option Image) : DepthStencilbuffer × List Event :=
  let r := DepthStencilbuffer.wrap convertDepthStencilFormat depthStencil
  match depthStencil with
  | none => r
  | some _ =>
      ({ r.1 with storage := { r.1.storage with format := GL_DEPTH_COMPONENT16_OES } },
       r.2)

/-- `Depthbuffer::Depthbuffer(int width, int height, GLsizei samples)`
(lines 452-460): delegate to the DepthStencilbuffer allocate constructor,
then overwrite the API-facing format iff `mDepthStencil` is non-null. -/
def Depthbuffer.alloc (dev : Device) (getSupportedMultisampleCount : Int → Int)
    (width height : Int) (samples : Int) : DepthStencilbuffer × List Event :=
  let r := DepthStencilbuffer.alloc dev getSupportedMultisampleCount width height samples
  match r.1.mDepthStencil with
  | none => r
  | some _ =>
      ({ r.1 with storage := { r.1.storage with format := GL_DEPTH_COMPONENT16_OES } },
       r.2)

/-- `Stencilbuffer::Stencilbuffer(egl::Image *depthStencil)` (lines 466-474). -/
def Stencilbuffer.wrap (convertDepthStencilFormat : Nat → Nat)
    (depthStencil : Option Image) : DepthStencilbuffer × List Event :=
  let r := DepthStencilbuffer.wrap convertDepthStencilFormat depthStencil
  match depthStencil with
  | none => r
  | some _ =>
      ({ r.1 with storage := { r.1.storage with format := GL_STENCIL_INDEX8_OES } },
       r.2)

/-- `Stencilbuffer::Stencilbuffer(int width, int height, GLsizei samples)`
(lines 476-484). -/
def Stencilbuffer.alloc (dev : Device) (getSupportedMultisampleCount : Int → Int)
    (width height : Int) (samples : Int) : DepthStencilbuffer × List Event :=
  let r := DepthStencilbuffer.alloc dev getSupportedMultisampleCount width height samples
  match r.1.mDepthStencil with
  | none => r
  | some _ =>
      ({ r.1 with storage := { r.1.storage with format := GL_STENCIL_INDEX8_OES } },
       r.2)

/-- External collaborator `Texture2D`, modelled at its interface boundary
(spec section 6): a proxy-reference counter plus the values its
level-0 / GL_TEXTURE_2D accessors report. -/
structure Texture2D where
  proxyRefs : Nat
  width : Int
  height : Int
  format : Nat
  internalFormat : Nat
  renderTarget : Option Image
  deriving DecidableEq, Repr

/-- The current `RenderbufferInterface` realization of a Renderbuffer:
either the RenderbufferTexture2D proxy (holding its `mTexture2D`) or a
storage-owning realization. -/
inductive RBInterface where
  | texture2D (t : Texture2D)
  | color (cb : Colorbuffer)
  | depthStencil (d : DepthStencilbuffer)
  deriving DecidableEq, Repr

/-- `RenderbufferInterface::addProxyRef` (lines 34-36, default no-op) and
`RenderbufferTexture2D::addProxyRef` (lines 86-89, forwards to the
texture). -/
def RBInterface.addProxyRef : RBInterface → RBInterface × List Event
  | .texture2D t =>
      (.texture2D { t with proxyRefs := t.proxyRefs + 1 }, [Event.texAddProxyRef])
  | i => (i, [])

/-- `RenderbufferInterface::releaseProxy` (lines 38-40, default no-op) and
`RenderbufferTexture2D::releaseProxy` (lines 91-94, forwards to the
texture). -/
def RBInterface.releaseProxy : RBInterface → RBInterface × List Event
  | .texture2D t =>
      (.texture2D { t with proxyRefs := t.proxyRefs - 1 }, [Event.texReleaseProxy])
  | i => (i, [])

/-- Query dispatch: `RenderbufferTexture2D::getWidth` forwards to the
texture (line 115-118); the storage realizations use
`RenderbufferStorage::getWidth`. -/
def RBInterface.getWidth : RBInterface → Int
  | .texture2D t => t.width
  | .color cb => cb.storage.getWidth
  | .depthStencil d => d.storage.getWidth

def RBInterface.getHeight : RBInterface → Int
  | .texture2D t => t.height
  | .color cb => cb.storage.getHeight
  | .depthStencil d => d.storage.getHeight

def RBInterface.getFormat : RBInterface → Nat
  | .texture2D t => t.format
  | .color cb => cb.storage.getFormat
  | .depthStencil d => d.storage.getFormat

def RBInterface.getInternalFormat : RBInterface → Nat
  | .texture2D t => t.internalFormat
  | .color cb => cb.storage.getInternalFormat
  | .depthStencil d => d.storage.getInternalFormat

/-- `RenderbufferTexture2D::getSamples` always returns 0 (lines 135-138);
the storage realizations use `RenderbufferStorage::getSamples`. -/
def RBInterface.getSamples : RBInterface → Int
  | .texture2D _ => 0
  | .color cb => cb.storage.getSamples
  | .depthStencil d => d.storage.getSamples

/-- `getRenderTarget` dispatch.  The texture proxy forwards to
`Texture2D::getRenderTarget(GL_TEXTURE_2D, 0)` (lines 98-101), which per
its contract returns a newly referenced image. -/
def RBInterface.getRenderTarget : RBInterface → Option Image × RBInterface × List Event
  | .texture2D t =>
      (match t.renderTarget with
       | none => (none, .texture2D t, [])
       | some img =>
           let img2 : Image := { img with refCount := img.refCount + 1 }
           (some img2, .texture2D { t with renderTarget := some img2 },
            [Event.imageAddRef img.id]))
  | .color cb =>
      let r := cb.getRenderTarget
      (r.1, .color r.2.1, r.2.2)
  | .depthStencil d =>
      let r := d.getRenderTarget
      (r.1, .depthStencil r.2.1, r.2.2)

/-- `createSharedImage` dispatch (texture proxy: lines 105-108). -/
def RBInterface.createSharedImage : RBInterface → Option Image × RBInterface × List Event
  | .texture2D t =>
      (match t.renderTarget with
       | none => (none, .texture2D t, [])
       | some img =>
           let img2 : Image := { img with refCount := img.refCount + 1, shared := true }
           (some img2, .texture2D { t with renderTarget := some img2 },
            [Event.imageAddRef img.id, Event.imageMarkShared img.id]))
  | .color cb =>
      let r := cb.createSharedImage
      (r.1, .color r.2.1, r.2.2)
  | .depthStencil d =>
      let r := d.createSharedImage
      (r.1, .depthStencil r.2.1, r.2.2)

/-- `isShared` dispatch (texture proxy: lines 110-113). -/
def RBInterface.isShared : RBInterface → Option Bool
  | .texture2D t => t.renderTarget.map (fun img => img.shared)
  | .color cb => cb.isShared
  | .depthStencil d => d.isShared

/-- `delete mInstance`: the destructor of the current realization.
`~RenderbufferTexture2D` only clears the texture pointer (lines 79-82);
the storage destructors release their owned image. -/
def RBInterface.destroy : RBInterface → List Event
  | .texture2D _ => []
  | .color cb => cb.destroy
  | .depthStencil d => d.destroy

/-- The Image owned by the realization, if any (the texture proxy owns
none). -/
def RBInterface.ownedImage : RBInterface → Option Image
  | .texture2D _ => none
  | .color cb => cb.mRenderTarget
  | .depthStencil d => d.mDepthStencil

/-- `Renderbuffer` (lines 142-249): NamedObject name, the base `Object`
reference count, and the exclusively owned current realization. -/
structure Renderbuffer where
  name : Nat
  refCount : Nat
  mInstance : RBInterface
  deriving DecidableEq, Repr

/-- `Renderbuffer::addRef` (lines 155-160): first `mInstance->addProxyRef(this)`,
then `Object::addRef()`. -/
def Renderbuffer.addRef (rb : Renderbuffer) : Renderbuffer × List Event :=
  let r := rb.mInstance.addProxyRef
  ({ rb with mInstance := r.1, refCount := rb.refCount + 1 },
   r.2 ++ [Event.objAddRef])

/-- `Renderbuffer::release` (lines 162-167): first `mInstance->releaseProxy(this)`,
then `Object::release()`. -/
def Renderbuffer.release (rb : Renderbuffer) : Renderbuffer × List Event :=
  let r := rb.mInstance.releaseProxy
  ({ rb with mInstance := r.1, refCount := rb.refCount - 1 },
   r.2 ++ [Event.objRelease])

def Renderbuffer.getWidth (rb : Renderbuffer) : Int := rb.mInstance.getWidth

def Renderbuffer.getHeight (rb : Renderbuffer) : Int := rb.mInstance.getHeight

def Renderbuffer.getFormat (rb : Renderbuffer) : Nat := rb.mInstance.getFormat

def Renderbuffer.getInternalFormat (rb : Renderbuffer) : Nat :=
  rb.mInstance.getInternalFormat

def Renderbuffer.getSamples (rb : Renderbuffer) : Int := rb.mInstance.getSamples

def Renderbuffer.getRenderTarget (rb : Renderbuffer) :
    Option Image × Renderbuffer × List Event :=
  let r := rb.mInstance.getRenderTarget
  (r.1, { rb with mInstance := r.2.1 }, r.2.2)

def Renderbuffer.createSharedImage (rb : Renderbuffer) :
    Option Image × Renderbuffer × List Event :=
  let r := rb.mInstance.createSharedImage
  (r.1, { rb with mInstance := r.2.1 }, r.2.2)

def Renderbuffer.isShared (rb : Renderbuffer) : Option Bool :=
  rb.mInstance.isShared

/-- The storage-owning realizations, the static type of
`Renderbuffer::setStorage`'s argument (`RenderbufferStorage*`). -/
inductive StorageKind where
  | color (cb : Colorbuffer)
  | depthStencil (d : DepthStencilbuffer)
  deriving DecidableEq, Repr

def StorageKind.toInterface : StorageKind → RBInterface
  | .color cb => .color cb
  | .depthStencil d => .depthStencil d

/-- `Renderbuffer::setStorage(RenderbufferStorage *newStorage)` (lines
243-249): `ASSERT(newStorage)` — non-null by construction here — then
`delete mInstance; mInstance = newStorage;`. -/
def Renderbuffer.setStorage (rb : Renderbuffer) (newStorage : StorageKind) :
    Renderbuffer × List Event :=
  ({ rb with mInstance := newStorage.toInterface }, rb.mInstance.destroy)

/-- Number of occurrences of an event in a trace. -/
def countEvent (evs : List Event) (e : Event) : Nat :=
  (evs.filter (fun x => x = e)).length

/-! Concrete fixtures used by witnesses and counterexamples: sample images,
a device whose allocators always fail, a device whose allocators always
succeed, sample conversion tables, and a multisample policy supporting
sample counts {0, 2, 4} with clamp-to-nearest-supported-below. -/

def img0 : Image :=
  { id := 7, width := 64, height := 32, depth := 5,
    internalFormat := FORMAT_A8B8G8R8, refCount := 1, shared := false }

def imgDS0 : Image :=
  { id := 9, width := 16, height := 16, depth := 4,
    internalFormat := FORMAT_D24S8, refCount := 1, shared := false }

def nullDevice : Device :=
  { createRenderTarget := fun _ _ _ _ _ => none
    createDepthStencilSurface := fun _ _ _ _ _ => none }

def okDevice : Device :=
  { createRenderTarget := fun _ _ _ _ _ => some img0
    createDepthStencilSurface := fun _ _ _ _ _ => some imgDS0 }

def convRB0 : Nat → Nat := fun f =>
  if f = GL_RGBA4_OES then FORMAT_A8B8G8R8 else FORMAT_D24S8

def convBB0 : Nat → Nat := fun f =>
  if f = FORMAT_A8B8G8R8 then GL_RGBA4_OES else f

def convDS0 : Nat → Nat := fun _ => GL_DEPTH24_STENCIL8_OES

def msCount0 : Int → Int := fun s => if s ≥ 4 then 4 else if s ≥ 2 then 2 else 0

def cb0 : Colorbuffer :=
  { storage :=
      { mWidth := 64, mHeight := 32, format := GL_RGBA4_OES,
        internalFormat := FORMAT_A8B8G8R8, mSamples := 0 }
    mRenderTarget := some img0 }

def dsb0 : DepthStencilbuffer :=
  { storage :=
      { mWidth := 16, mHeight := 16, format := GL_DEPTH24_STENCIL8_OES,
        internalFormat := FORMAT_D24S8, mSamples := 0 }
    mDepthStencil := some imgDS0 }

def tex0 : Texture2D :=
  { proxyRefs := 0, width := 8, height := 8, format := GL_RGBA4_OES,
    internalFormat := FORMAT_A8B8G8R8, renderTarget := none }

def rb0 : Renderbuffer :=
  { name := 1, refCount := 1, mInstance := RBInterface.color cb0 }

def rbTex0 : Renderbuffer :=
  { name := 2, refCount := 1, mInstance := RBInterface.texture2D tex0 }

/-- C1 counterexample: an allocate-mode `Colorbuffer(5, 6, GL_RGBA4_OES, 4)`
construction in which the device returns null raises GL_OUT_OF_MEMORY once
and leaves the Image null, but — contrary to the claim — `getWidth()`
afterwards reports the default-constructed 0, not the requested 5:
the constructor returns early before the member assignments. -/
theorem claim1_counterexample :
    countEvent (Colorbuffer.alloc nullDevice convRB0 msCount0 5 6 GL_RGBA4_OES 4).2
        (Event.glError GL_OUT_OF_MEMORY) = 1 ∧
    (Colorbuffer.alloc nullDevice convRB0 msCount0 5 6 GL_RGBA4_OES 4).1.mRenderTarget
        = none ∧
    ¬ ((Colorbuffer.alloc nullDevice convRB0 msCount0 5 6 GL_RGBA4_OES 4).1.storage.getWidth
        = 5) ∧
    (Colorbuffer.alloc nullDevice convRB0 msCount0 5 6 GL_RGBA4_OES 4).1.storage.getWidth
        = 0 := by
  decide

/-- C1 (amended): when an allocate-mode construction of Colorbuffer or
DepthStencilbuffer with positive width and height gets null back from the
device, the constructor raises GL_OUT_OF_MEMORY exactly once and leaves the
owned Image reference null, but it returns early before recording the
request, so the storage keeps the default-constructed state (width 0,
height 0, GL_RGBA4_OES, FORMAT_A8B8G8R8, 0 samples), not the requested
geometry. -/
theorem claim1_alloc_failure_default_state
    (dev : Device) (cRB : Nat → Nat) (ms : Int → Int)
    (w h : Int) (fmt : Nat) (s : Int)
    (hw : w > 0) (hh : h > 0)
    (hc : dev.createRenderTarget w h (cRB fmt) (ms s) false = none)
    (hd : dev.createDepthStencilSurface w h FORMAT_D24S8 (ms s) false = none) :
    countEvent (Colorbuffer.alloc dev cRB ms w h fmt s).2
        (Event.glError GL_OUT_OF_MEMORY) = 1 ∧
    (Colorbuffer.alloc dev cRB ms w h fmt s).1.mRenderTarget = none ∧
    (Colorbuffer.alloc dev cRB ms w h fmt s).1.storage = RenderbufferStorage.init ∧
    countEvent (DepthStencilbuffer.alloc dev ms w h s).2
        (Event.glError GL_OUT_OF_MEMORY) = 1 ∧
    (DepthStencilbuffer.alloc dev ms w h s).1.mDepthStencil = none ∧
    (DepthStencilbuffer.alloc dev ms w h s).1.storage = RenderbufferStorage.init := by
  simp [Colorbuffer.alloc, DepthStencilbuffer.alloc, hc, hd, hw, hh, countEvent,
    List.filter]

/-- C1 witness: the amended statement holds at a concrete failing device. -/
theorem claim1_witness :
    countEvent (Colorbuffer.alloc nullDevice convRB0 msCount0 5 6 GL_RGBA4_OES 4).2
        (Event.glError GL_OUT_OF_MEMORY) = 1 ∧
    (Colorbuffer.alloc nullDevice convRB0 msCount0 5 6 GL_RGBA4_OES 4).1.storage
        = RenderbufferStorage.init := by
  have h := claim1_alloc_failure_default_state nullDevice convRB0 msCount0 5 6
    GL_RGBA4_OES 4 (by decide) (by decide) rfl rfl
  exact ⟨h.1, h.2.2.1⟩

/-- C2: `setStorage(newStorage)` runs the old realization's destructor
exactly once — releasing the Image it owned, if any, exactly once — and
installs `newStorage`, after which every query forwards to `newStorage`. -/
theorem claim2_setStorage_swap (rb : Renderbuffer) (new : StorageKind) :
    (rb.setStorage new).1.mInstance = new.toInterface ∧
    (rb.setStorage new).2 = rb.mInstance.destroy ∧
    (∀ img, rb.mInstance.ownedImage = some img →
        countEvent (rb.setStorage new).2 (Event.imageRelease img.id) = 1) ∧
    (rb.setStorage new).1.getWidth = new.toInterface.getWidth ∧
    (rb.setStorage new).1.getHeight = new.toInterface.getHeight ∧
    (rb.setStorage new).1.getFormat = new.toInterface.getFormat ∧
    (rb.setStorage new).1.getInternalFormat = new.toInterface.getInternalFormat ∧
    (rb.setStorage new).1.getSamples = new.toInterface.getSamples ∧
    (rb.setStorage new).1.getRenderTarget.1 = new.toInterface.getRenderTarget.1 ∧
    (rb.setStorage new).1.isShared = new.toInterface.isShared := by
  refine ⟨rfl, rfl, ?_, rfl, rfl, rfl, rfl, rfl, rfl, rfl⟩
  intro img himg
  rcases hI : rb.mInstance with t | cb | d
  · rw [hI] at himg
    simp [RBInterface.ownedImage] at himg
  · rw [hI] at himg
    simp only [RBInterface.ownedImage] at himg
    simp [Renderbuffer.setStorage, hI, RBInterface.destroy, Colorbuffer.destroy,
      himg, countEvent, List.filter]
  · rw [hI] at himg
    simp only [RBInterface.ownedImage] at himg
    simp [Renderbuffer.setStorage, hI, RBInterface.destroy,
      DepthStencilbuffer.destroy, himg, countEvent, List.filter]

/-- C2 witness: swapping a Colorbuffer-backed handle to a
DepthStencilbuffer releases the old Colorbuffer's image exactly once and
queries reflect the new storage. -/
theorem claim2_witness :
    (rb0.setStorage (StorageKind.depthStencil dsb0)).1.mInstance
      = (StorageKind.depthStencil dsb0).toInterface ∧
    countEvent (rb0.setStorage (StorageKind.depthStencil dsb0)).2
      (Event.imageRelease img0.id) = 1 ∧
    (rb0.setStorage (StorageKind.depthStencil dsb0)).1.getWidth
      = (StorageKind.depthStencil dsb0).toInterface.getWidth := by
  have h := claim2_setStorage_swap rb0 (StorageKind.depthStencil dsb0)
  exact ⟨h.1, h.2.2.1 img0 rfl, h.2.2.2.1⟩

/-- C3: `Renderbuffer::addRef`/`release` invoke the interface's
`addProxyRef`/`releaseProxy` before the base Object refcount operation;
on a RenderbufferTexture2D realization they forward one-for-one to the
texture, on a storage-owning realization they are no-ops. -/
theorem claim3_addRef_release_proxy (rb : Renderbuffer) :
    (rb.addRef).1.refCount = rb.refCount + 1 ∧
    (rb.release).1.refCount = rb.refCount - 1 ∧
    (∀ t, rb.mInstance = RBInterface.texture2D t →
        (rb.addRef).2 = [Event.texAddProxyRef, Event.objAddRef] ∧
        (rb.addRef).1.mInstance
          = RBInterface.texture2D { t with proxyRefs := t.proxyRefs + 1 } ∧
        (rb.release).2 = [Event.texReleaseProxy, Event.objRelease] ∧
        (rb.release).1.mInstance
          = RBInterface.texture2D { t with proxyRefs := t.proxyRefs - 1 }) ∧
    (∀ cb, rb.mInstance = RBInterface.color cb →
        (rb.addRef).2 = [Event.objAddRef] ∧
        (rb.release).2 = [Event.objRelease]) ∧
    (∀ d, rb.mInstance = RBInterface.depthStencil d →
        (rb.addRef).2 = [Event.objAddRef] ∧
        (rb.release).2 = [Event.objRelease]) := by
  refine ⟨rfl, rfl, ?_, ?_, ?_⟩
  · intro t ht
    simp [Renderbuffer.addRef, Renderbuffer.release, ht, RBInterface.addProxyRef,
      RBInterface.releaseProxy]
  · intro cb hcb
    simp [Renderbuffer.addRef, Renderbuffer.release, hcb, RBInterface.addProxyRef,
      RBInterface.releaseProxy]
  · intro d hd
    simp [Renderbuffer.addRef, Renderbuffer.release, hd, RBInterface.addProxyRef,
      RBInterface.releaseProxy]

/-- C3 witness: on a texture-proxy-backed handle addRef/release produce one
proxy call each, before the Object refcount event; on a storage-backed
handle they produce none. -/
theorem claim3_witness :
    (rbTex0.addRef).2 = [Event.texAddProxyRef, Event.objAddRef] ∧
    (rbTex0.release).2 = [Event.texReleaseProxy, Event.objRelease] ∧
    (rb0.addRef).2 = [Event.objAddRef] ∧
    (rbTex0.addRef).1.refCount = rbTex0.refCount + 1 := by
  have ht := claim3_addRef_release_proxy rbTex0
  have hs := claim3_addRef_release_proxy rb0
  have h1 := ht.2.2.1 tex0 rfl
  have h2 := hs.2.2.2.1 cb0 rfl
  exact ⟨h1.1, h1.2.2.1, h2.1, ht.1⟩

/-- C4: successful allocate-mode construction records the requested width
and height, records the clamped sample count returned by
`Context::getSupportedMultisampleCount`, and `getRenderTarget` returns the
non-null backing Image with its refcount newly incremented; likewise for
DepthStencilbuffer. -/
theorem claim4_alloc_success
    (dev : Device) (cRB : Nat → Nat) (ms : Int → Int)
    (w h : Int) (fmt : Nat) (s : Int) (img jmg : Image)
    (hw : w > 0) (hh : h > 0)
    (hc : dev.createRenderTarget w h (cRB fmt) (ms s) false = some img)
    (hd : dev.createDepthStencilSurface w h FORMAT_D24S8 (ms s) false = some jmg) :
    (Colorbuffer.alloc dev cRB ms w h fmt s).1.storage.getWidth = w ∧
    (Colorbuffer.alloc dev cRB ms w h fmt s).1.storage.getHeight = h ∧
    (Colorbuffer.alloc dev cRB ms w h fmt s).1.storage.getSamples = ms s ∧
    (Colorbuffer.alloc dev cRB ms w h fmt s).1.storage.getFormat = fmt ∧
    (Colorbuffer.alloc dev cRB ms w h fmt s).1.getRenderTarget.1
      = some { img with refCount := img.refCount + 1 } ∧
    (Colorbuffer.alloc dev cRB ms w h fmt s).1.getRenderTarget.1 ≠ none ∧
    (DepthStencilbuffer.alloc dev ms w h s).1.storage.getWidth = w ∧
    (DepthStencilbuffer.alloc dev ms w h s).1.storage.getHeight = h ∧
    (DepthStencilbuffer.alloc dev ms w h s).1.storage.getSamples = ms s ∧
    (DepthStencilbuffer.alloc dev ms w h s).1.getRenderTarget.1
      = some { jmg with refCount := jmg.refCount + 1 } ∧
    (DepthStencilbuffer.alloc dev ms w h s).1.getRenderTarget.1 ≠ none := by
  simp [Colorbuffer.alloc, DepthStencilbuffer.alloc, hc, hd, hw, hh,
    Colorbuffer.getRenderTarget, DepthStencilbuffer.getRenderTarget,
    RenderbufferStorage.getWidth, RenderbufferStorage.getHeight,
    RenderbufferStorage.getSamples, RenderbufferStorage.getFormat]

/-- C4 witness: `Colorbuffer(64, 32, GL_RGBA4_OES, 8)` on a device
supporting sample counts {0,2,4} yields `getSamples() == 4` (clamped, not
8), the requested 64x32 geometry, and a non-null newly referenced render
target. -/
theorem claim4_witness :
    (Colorbuffer.alloc okDevice convRB0 msCount0 64 32 GL_RGBA4_OES 8).1.storage.getWidth
      = 64 ∧
    (Colorbuffer.alloc okDevice convRB0 msCount0 64 32 GL_RGBA4_OES 8).1.storage.getHeight
      = 32 ∧
    (Colorbuffer.alloc okDevice convRB0 msCount0 64 32 GL_RGBA4_OES 8).1.storage.getSamples
      = 4 ∧
    (Colorbuffer.alloc okDevice convRB0 msCount0 64 32 GL_RGBA4_OES 8).1.getRenderTarget.1
      = some { img0 with refCount := img0.refCount + 1 } := by
  have h := claim4_alloc_success okDevice convRB0 msCount0 64 32 GL_RGBA4_OES 8
    img0 imgDS0 (by decide) (by decide) rfl rfl
  exact ⟨h.1, h.2.1, h.2.2.1, h.2.2.2.2.1⟩

/-- C5: allocate-mode construction with non-positive width or height makes
no device allocation call (the trace is empty), leaves the Image null, and
still records the requested width/height. -/
theorem claim5_alloc_zero_size
    (dev : Device) (cRB : Nat → Nat) (ms : Int → Int)
    (w h : Int) (fmt : Nat) (s : Int)
    (hwh : w ≤ 0 ∨ h ≤ 0) :
    (Colorbuffer.alloc dev cRB ms w h fmt s).2 = [] ∧
    (Colorbuffer.alloc dev cRB ms w h fmt s).1.mRenderTarget = none ∧
    (Colorbuffer.alloc dev cRB ms w h fmt s).1.storage.getWidth = w ∧
    (Colorbuffer.alloc dev cRB ms w h fmt s).1.storage.getHeight = h ∧
    (DepthStencilbuffer.alloc dev ms w h s).2 = [] ∧
    (DepthStencilbuffer.alloc dev ms w h s).1.mDepthStencil = none ∧
    (DepthStencilbuffer.alloc dev ms w h s).1.storage.getWidth = w ∧
    (DepthStencilbuffer.alloc dev ms w h s).1.storage.getHeight = h := by
  have hcond : ¬ (w > 0 ∧ h > 0) := by
    rcases hwh with hw | hh
    · intro hand; omega
    · intro hand; omega
  simp [Colorbuffer.alloc, DepthStencilbuffer.alloc, hcond,
    RenderbufferStorage.getWidth, RenderbufferStorage.getHeight]

/-- C5 witness: a 0-wide and a negative-height request both skip the device
and keep the requested sizes. -/
theorem claim5_witness :
    (Colorbuffer.alloc okDevice convRB0 msCount0 0 32 GL_RGBA4_OES 0).2 = [] ∧
    (Colorbuffer.alloc okDevice convRB0 msCount0 0 32 GL_RGBA4_OES 0).1.mRenderTarget
      = none ∧
    (Colorbuffer.alloc okDevice convRB0 msCount0 0 32 GL_RGBA4_OES 0).1.storage.getWidth
      = 0 ∧
    (DepthStencilbuffer.alloc okDevice msCount0 8 (-3) 0).2 = [] ∧
    (DepthStencilbuffer.alloc okDevice msCount0 8 (-3) 0).1.storage.getHeight
      = -3 := by
  have h1 := claim5_alloc_zero_size okDevice convRB0 msCount0 0 32 GL_RGBA4_OES 0
    (Or.inl (by decide))
  have h2 := claim5_alloc_zero_size okDevice convRB0 msCount0 8 (-3) GL_RGBA4_OES 0
    (Or.inr (by decide))
  exact ⟨h1.1, h1.2.1, h1.2.2.1, h2.2.2.2.2.1, h2.2.2.2.2.2.2.2⟩

/-- C6: wrap-mode construction from a non-null Image performs no device
allocation — the whole trace is one addRef of the given image — and reports
the Image's width/height/internal format, the applicable conversion of that
internal format as the API format, and `getDepth() & ~1` (the low bit
masked off, here `depth - depth % 2`) as the sample count. -/
theorem claim6_wrap_mode (cBB cDS : Nat → Nat) (img : Image) :
    (Colorbuffer.wrap cBB (some img)).2 = [Event.imageAddRef img.id] ∧
    (Colorbuffer.wrap cBB (some img)).1.storage.getWidth = img.width ∧
    (Colorbuffer.wrap cBB (some img)).1.storage.getHeight = img.height ∧
    (Colorbuffer.wrap cBB (some img)).1.storage.getInternalFormat
      = img.internalFormat ∧
    (Colorbuffer.wrap cBB (some img)).1.storage.getFormat
      = cBB img.internalFormat ∧
    (Colorbuffer.wrap cBB (some img)).1.storage.getSamples
      = depthAndNotOne img.depth ∧
    (Colorbuffer.wrap cBB (some img)).1.mRenderTarget
      = some { img with refCount := img.refCount + 1 } ∧
    (DepthStencilbuffer.wrap cDS (some img)).2 = [Event.imageAddRef img.id] ∧
    (DepthStencilbuffer.wrap cDS (some img)).1.storage.getWidth = img.width ∧
    (DepthStencilbuffer.wrap cDS (some img)).1.storage.getHeight = img.height ∧
    (DepthStencilbuffer.wrap cDS (some img)).1.storage.getInternalFormat
      = img.internalFormat ∧
    (DepthStencilbuffer.wrap cDS (some img)).1.storage.getFormat
      = cDS img.internalFormat ∧
    (DepthStencilbuffer.wrap cDS (some img)).1.storage.getSamples
      = depthAndNotOne img.depth ∧
    (DepthStencilbuffer.wrap cDS (some img)).1.mDepthStencil
      = some { img with refCount := img.refCount + 1 } := by
  simp [Colorbuffer.wrap, DepthStencilbuffer.wrap,
    RenderbufferStorage.getWidth, RenderbufferStorage.getHeight,
    RenderbufferStorage.getInternalFormat, RenderbufferStorage.getFormat,
    RenderbufferStorage.getSamples]

/-- C7: Depthbuffer / Stencilbuffer constructed over a non-null backing
report the depth-only / stencil-only API format while `getInternalFormat`
still reports the combined depth-stencil internal format; over a null
backing the format override does not fire and the object is exactly what
the DepthStencilbuffer base constructor produced. -/
theorem claim7_format_override
    (cDS : Nat → Nat) (dev devF : Device) (ms : Int → Int)
    (img i : Image) (w h s : Int)
    (himg : img.internalFormat = FORMAT_D24S8)
    (hw : w > 0) (hh : h > 0)
    (hc : dev.createDepthStencilSurface w h FORMAT_D24S8 (ms s) false = some i)
    (hf : devF.createDepthStencilSurface w h FORMAT_D24S8 (ms s) false = none) :
    (Depthbuffer.wrap cDS (some img)).1.storage.getFormat
      = GL_DEPTH_COMPONENT16_OES ∧
    (Depthbuffer.wrap cDS (some img)).1.storage.getInternalFormat
      = FORMAT_D24S8 ∧
    (Stencilbuffer.wrap cDS (some img)).1.storage.getFormat
      = GL_STENCIL_INDEX8_OES ∧
    (Stencilbuffer.wrap cDS (some img)).1.storage.getInternalFormat
      = FORMAT_D24S8 ∧
    (Depthbuffer.alloc dev ms w h s).1.storage.getFormat
      = GL_DEPTH_COMPONENT16_OES ∧
    (Depthbuffer.alloc dev ms w h s).1.storage.getInternalFormat
      = FORMAT_D24S8 ∧
    (Stencilbuffer.alloc dev ms w h s).1.storage.getFormat
      = GL_STENCIL_INDEX8_OES ∧
    (Stencilbuffer.alloc dev ms w h s).1.storage.getInternalFormat
      = FORMAT_D24S8 ∧
    (Depthbuffer.wrap cDS none).1 = (DepthStencilbuffer.wrap cDS none).1 ∧
    (Stencilbuffer.wrap cDS none).1 = (DepthStencilbuffer.wrap cDS none).1 ∧
    (Depthbuffer.alloc devF ms w h s).1 = (DepthStencilbuffer.alloc devF ms w h s).1 ∧
    (Stencilbuffer.alloc devF ms w h s).1 = (DepthStencilbuffer.alloc devF ms w h s).1 := by
  simp [Depthbuffer.wrap, Stencilbuffer.wrap, Depthbuffer.alloc, Stencilbuffer.alloc,
    DepthStencilbuffer.wrap, DepthStencilbuffer.alloc, hc, hf, hw, hh, himg,
    RenderbufferStorage.getFormat, RenderbufferStorage.getInternalFormat]

/-- C7 witness: a Depthbuffer wrapping a concrete combined-depth-stencil
image reports GL_DEPTH_COMPONENT16_OES over FORMAT_D24S8; an allocate-mode
Stencilbuffer on a succeeding device reports GL_STENCIL_INDEX8_OES; over a
null backing the Depthbuffer equals the plain DepthStencilbuffer result. -/
theorem claim7_witness :
    (Depthbuffer.wrap convDS0 (some imgDS0)).1.storage.getFormat
      = GL_DEPTH_COMPONENT16_OES ∧
    (Depthbuffer.wrap convDS0 (some imgDS0)).1.storage.getInternalFormat
      = FORMAT_D24S8 ∧
    (Stencilbuffer.alloc okDevice msCount0 8 8 0).1.storage.getFormat
      = GL_STENCIL_INDEX8_OES ∧
    (Depthbuffer.wrap convDS0 none).1 = (DepthStencilbuffer.wrap convDS0 none).1 := by
  have h := claim7_format_override convDS0 okDevice nullDevice msCount0 imgDS0
    imgDS0 8 8 0 rfl (by decide) (by decide) rfl rfl
  exact ⟨h.1, h.2.1, h.2.2.2.2.2.2.1, h.2.2.2.2.2.2.2.2.1⟩

/-- C8: on a storage-owning realization with a non-null backing,
`createSharedImage` returns the backing Image newly referenced and shared —
`isShared` reports true afterwards — while `getRenderTarget` also
increments the refcount but leaves the shared flag exactly as it was. -/
theorem claim8_createSharedImage
    (cb : Colorbuffer) (d : DepthStencilbuffer) (img jmg : Image)
    (hc : cb.mRenderTarget = some img) (hd : d.mDepthStencil = some jmg) :
    (cb.createSharedImage).1
      = some { img with refCount := img.refCount + 1, shared := true } ∧
    (cb.createSharedImage).2.1.isShared = some true ∧
    (cb.getRenderTarget).1 = some { img with refCount := img.refCount + 1 } ∧
    (cb.getRenderTarget).2.1.isShared = some img.shared ∧
    (d.createSharedImage).1
      = some { jmg with refCount := jmg.refCount + 1, shared := true } ∧
    (d.createSharedImage).2.1.isShared = some true ∧
    (d.getRenderTarget).1 = some { jmg with refCount := jmg.refCount + 1 } ∧
    (d.getRenderTarget).2.1.isShared = some jmg.shared := by
  simp [Colorbuffer.createSharedImage, Colorbuffer.getRenderTarget,
    Colorbuffer.isShared, DepthStencilbuffer.createSharedImage,
    DepthStencilbuffer.getRenderTarget, DepthStencilbuffer.isShared, hc, hd]

/-- C8 witness: on the concrete Colorbuffer owning `img0` (unshared,
refcount 1), `createSharedImage` yields a shared image with refcount 2 and
`isShared` then reports true, while `getRenderTarget` leaves the shared
flag false. -/
theorem claim8_witness :
    (cb0.createSharedImage).1
      = some { img0 with refCount := img0.refCount + 1, shared := true } ∧
    (cb0.createSharedImage).2.1.isShared = some true ∧
    (cb0.getRenderTarget).2.1.isShared = some false := by
  have h := claim8_createSharedImage cb0 dsb0 img0 imgDS0 rfl rfl
  exact ⟨h.1, h.2.1, h.2.2.2.1⟩

/-- C9: `isShared` on a storage-owning realization is defined exactly when
the backing Image is non-null; under that precondition it returns the
Image's shared flag, and with a null backing there is no defined result
(the modelled null dereference). -/
theorem claim9_isShared_contract (cb : Colorbuffer) (d : DepthStencilbuffer) :
    (∀ img, cb.mRenderTarget = some img → cb.isShared = some img.shared) ∧
    (cb.mRenderTarget = none → cb.isShared = none) ∧
    (∀ jmg, d.mDepthStencil = some jmg → d.isShared = some jmg.shared) ∧
    (d.mDepthStencil = none → d.isShared = none) := by
  refine ⟨?_, ?_, ?_, ?_⟩
  · intro img himg; simp [Colorbuffer.isShared, himg]
  · intro hnone; simp [Colorbuffer.isShared, hnone]
  · intro jmg hjmg; simp [DepthStencilbuffer.isShared, hjmg]
  · intro hnone; simp [DepthStencilbuffer.isShared, hnone]

/-- C9 witness: on the concrete backed Colorbuffer `isShared` returns the
image's flag; on a Colorbuffer whose allocation failed (null backing) it
has no defined result. -/
theorem claim9_witness :
    cb0.isShared = some img0.shared ∧
    (Colorbuffer.alloc nullDevice convRB0 msCount0 5 6 GL_RGBA4_OES 4).1.isShared
      = none := by
  have h := claim9_isShared_contract cb0 dsb0
  have h2 := claim9_isShared_contract
    (Colorbuffer.alloc nullDevice convRB0 msCount0 5 6 GL_RGBA4_OES 4).1 dsb0
  exact ⟨h.1 img0 rfl, h2.2.1 (by decide)⟩

/-- C10: with a null backing Image, `getRenderTarget` and
`createSharedImage` on both storage-owning realizations return null with an
empty trace — no refcount increment, no markShared, no error raised. -/
theorem claim10_null_backing
    (cb : Colorbuffer) (d : DepthStencilbuffer)
    (hc : cb.mRenderTarget = none) (hd : d.mDepthStencil = none) :
    cb.getRenderTarget = (none, cb, []) ∧
    cb.createSharedImage = (none, cb, []) ∧
    d.getRenderTarget = (none, d, []) ∧
    d.createSharedImage = (none, d, []) := by
  simp [Colorbuffer.getRenderTarget, Colorbuffer.createSharedImage,
    DepthStencilbuffer.getRenderTarget, DepthStencilbuffer.createSharedImage,
    hc, hd]

/-- C10 witness: a Colorbuffer and a DepthStencilbuffer whose allocations
failed return null from both accessors with no observable effects. -/
theorem claim10_witness :
    (Colorbuffer.alloc nullDevice convRB0 msCount0 5 6 GL_RGBA4_OES 4).1.getRenderTarget
      = (none, (Colorbuffer.alloc nullDevice convRB0 msCount0 5 6 GL_RGBA4_OES 4).1, []) ∧
    (DepthStencilbuffer.alloc nullDevice msCount0 5 6 4).1.createSharedImage
      = (none, (DepthStencilbuffer.alloc nullDevice msCount0 5 6 4).1, []) := by
  have h := claim10_null_backing
    (Colorbuffer.alloc nullDevice convRB0 msCount0 5 6 GL_RGBA4_OES 4).1
    (DepthStencilbuffer.alloc nullDevice msCount0 5 6 4).1
    (by decide) (by decide)
  exact ⟨h.1, h.2.2.2⟩

end es1
